import Mathlib

/-!
Verification of the scoring and alignment engine of the sg-political-compass
repository.  The engine lives in `src/app/data/questions.ts` and
`src/app/data/parties.ts`; numbers are embedded as exact rationals (`ℚ`),
and the Euclidean-distance pipeline as exact reals (`ℝ`).
JavaScript objects keyed by question id are embedded as association lists
`List (ℕ × _)` iterated in entry order; `Array.prototype.sort` (a stable
sort) is embedded as `List.insertionSort`, which is stable and produces the
same list for a consistent comparator.
-/

namespace SGCompass

/-- Topical category of a question (`QuestionCategory` in `questions.ts`). -/
inductive QuestionCategory
  | taxation
  | housing
  | healthcare
  | employment
  | welfare
  | governance
  | civil_liberties
  | immigration
  deriving DecidableEq, Repr, Inhabited, Fintype

/-- Ideological axis of a question (the `axis` field in `questions.ts`). -/
inductive Axis
  | economic
  | social
  deriving DecidableEq, Repr, Inhabited, Fintype

/-- Stance scores of the four reference parties on one question
(the `partyScores` field of `Question` in `questions.ts`). -/
structure PartyScores where
  pap : ℚ
  wp : ℚ
  psp : ℚ
  sdp : ℚ
  deriving DecidableEq, Repr, Inhabited

/-- One questionnaire item (`Question` in `questions.ts`). -/
structure Question where
  id : ℕ
  text : String
  category : QuestionCategory
  axis : Axis
  weight : ℚ
  partyScores : PartyScores
  deriving DecidableEq, Repr, Inhabited

/-- Identifier of a reference party (`'pap' | 'wp' | 'psp' | 'sdp'`, the id
strings used throughout `parties.ts`). -/
inductive PartyId
  | pap
  | wp
  | psp
  | sdp
  deriving DecidableEq, Repr, Inhabited, Fintype

/-- String form of a party id, as the id strings appear in the source. -/
def PartyId.str : PartyId → String
  | .pap => "pap"
  | .wp => "wp"
  | .psp => "psp"
  | .sdp => "sdp"

/-- Dynamic lookup `question.partyScores[partyId]` used in `parties.ts`. -/
def PartyScores.get (ps : PartyScores) : PartyId → ℚ
  | .pap => ps.pap
  | .wp => ps.wp
  | .psp => ps.psp
  | .sdp => ps.sdp

/-- Embeds `const clamp = (value, min, max) => Math.max(min, Math.min(max, value))`
from `questions.ts` line 28. -/
def clamp (value lo hi : ℚ) : ℚ := max lo (min hi value)

/-- Embeds `getAxisDirection` (`questions.ts` lines 48-54): the sign of the
difference between PAP's stance and the plain mean of the three opposition
stances, with a dead zone of width 0.1. -/
def getAxisDirection (question : Question) : ℚ :=
  let governmentSupport := question.partyScores.pap
  let oppositionSupport :=
    (question.partyScores.wp + question.partyScores.psp + question.partyScores.sdp) / 3
  let difference := governmentSupport - oppositionSupport
  if |difference| < 1/10 then 0
  else if difference > 0 then 1 else -1

/-- The 40-question bank of `questions.ts` (lines 68-404), embedded verbatim. -/
def questions : List Question := [
  { id := 1,
    text := "The GST should be reduced from 9% back to 7%, with essential items like food and medicine exempted.",
    category := .taxation, axis := .economic, weight := 3,
    partyScores := { pap := -2, wp := 2, psp := 2, sdp := 2 } },
  { id := 2,
    text := "Singapore should maintain large national reserves for future generations rather than spending more now.",
    category := .taxation, axis := .economic, weight := 3,
    partyScores := { pap := 2, wp := -1, psp := -1, sdp := -2 } },
  { id := 3,
    text := "The wealthy and top earners should pay significantly higher taxes to fund social programs.",
    category := .taxation, axis := .economic, weight := 2,
    partyScores := { pap := -1, wp := 1, psp := 2, sdp := 2 } },
  { id := 4,
    text := "The government should use more of the Net Investment Returns Contribution (NIRC) from reserves to fund current spending.",
    category := .taxation, axis := .economic, weight := 2,
    partyScores := { pap := -1, wp := 2, psp := 1, sdp := 2 } },
  { id := 5,
    text := "Corporate taxes should remain competitive to attract multinational companies, even if it means less tax revenue.",
    category := .taxation, axis := .economic, weight := 2,
    partyScores := { pap := 2, wp := -1, psp := -1, sdp := -2 } },
  { id := 6,
    text := "HDB flat prices should exclude land cost, making public housing truly affordable for all Singaporeans.",
    category := .housing, axis := .economic, weight := 3,
    partyScores := { pap := -2, wp := 1, psp := 2, sdp := 2 } },
  { id := 7,
    text := "Building more HDB flats quickly is the best solution to housing affordability, rather than changing pricing models.",
    category := .housing, axis := .economic, weight := 2,
    partyScores := { pap := 2, wp := 0, psp := -1, sdp := -1 } },
  { id := 8,
    text := "The government should introduce non-open market housing options with shorter leases (e.g., 50-60 years) at lower prices.",
    category := .housing, axis := .economic, weight := 2,
    partyScores := { pap := -1, wp := 2, psp := 1, sdp := 2 } },
  { id := 9,
    text := "It is acceptable that HDB flats lose value over time (lease decay) as part of the 99-year lease system.",
    category := .housing, axis := .economic, weight := 2,
    partyScores := { pap := 1, wp := -2, psp := -2, sdp := -2 } },
  { id := 10,
    text := "The government should cap resale HDB prices to keep housing affordable for future generations.",
    category := .housing, axis := .economic, weight := 2,
    partyScores := { pap := -2, wp := 1, psp := 2, sdp := 2 } },
  { id := 11,
    text := "Singapore should implement a universal national healthcare system funded by taxes, reducing out-of-pocket costs.",
    category := .healthcare, axis := .economic, weight := 3,
    partyScores := { pap := -2, wp := 1, psp := 1, sdp := 2 } },
  { id := 12,
    text := "The current Medisave/Medishield system of personal healthcare savings is better than a tax-funded universal system.",
    category := .healthcare, axis := .economic, weight := 2,
    partyScores := { pap := 2, wp := -1, psp := -1, sdp := -2 } },
  { id := 13,
    text := "The government should centralize drug procurement to negotiate lower prices for all public hospitals.",
    category := .healthcare, axis := .economic, weight := 2,
    partyScores := { pap := 0, wp := 1, psp := 2, sdp := 2 } },
  { id := 14,
    text := "Healthcare costs should primarily be borne by individuals through their CPF Medisave, not general taxation.",
    category := .healthcare, axis := .economic, weight := 2,
    partyScores := { pap := 2, wp := -1, psp := -1, sdp := -2 } },
  { id := 15,
    text := "The government should expand healthcare subsidies significantly, especially for the elderly and lower-income groups.",
    category := .healthcare, axis := .economic, weight := 2,
    partyScores := { pap := 1, wp := 2, psp := 2, sdp := 2 } },
  { id := 16,
    text := "Singapore should implement a national minimum wage law for all workers.",
    category := .employment, axis := .economic, weight := 3,
    partyScores := { pap := -2, wp := 1, psp := 2, sdp := 2 } },
  { id := 17,
    text := "The Progressive Wage Model (sector-specific wage floors with skills progression) is better than a blanket minimum wage.",
    category := .employment, axis := .economic, weight := 2,
    partyScores := { pap := 2, wp := 0, psp := -1, sdp := -1 } },
  { id := 18,
    text := "The government should implement redundancy insurance to help workers who are retrenched.",
    category := .employment, axis := .economic, weight := 2,
    partyScores := { pap := 0, wp := 2, psp := 1, sdp := 2 } },
  { id := 19,
    text := "Employers should be required to demonstrate that no qualified Singaporean is available before hiring foreign professionals.",
    category := .employment, axis := .economic, weight := 2,
    partyScores := { pap := -1, wp := 2, psp := 2, sdp := 1 } },
  { id := 20,
    text := "Singapore should prioritize attracting global talent and foreign professionals for economic competitiveness.",
    category := .employment, axis := .economic, weight := 2,
    partyScores := { pap := 2, wp := -1, psp := -2, sdp := -1 } },
  { id := 21,
    text := "Welfare benefits should be conditional on active job-seeking or participation in training programs.",
    category := .welfare, axis := .economic, weight := 2,
    partyScores := { pap := 2, wp := 0, psp := 0, sdp := -1 } },
  { id := 22,
    text := "The government should provide universal cash transfers to all citizens rather than targeted subsidies.",
    category := .welfare, axis := .economic, weight := 2,
    partyScores := { pap := -2, wp := 1, psp := 1, sdp := 2 } },
  { id := 23,
    text := "CPF should primarily remain a personal savings scheme rather than being used for broader social security.",
    category := .welfare, axis := .economic, weight := 2,
    partyScores := { pap := 2, wp := -1, psp := -1, sdp := -2 } },
  { id := 24,
    text := "Government vouchers and targeted rebates are more effective than broad-based welfare programs.",
    category := .welfare, axis := .economic, weight := 2,
    partyScores := { pap := 2, wp := -1, psp := -1, sdp := -2 } },
  { id := 25,
    text := "The elderly should receive a basic income from the government regardless of their means.",
    category := .welfare, axis := .economic, weight := 2,
    partyScores := { pap := -1, wp := 1, psp := 1, sdp := 2 } },
  { id := 26,
    text := "All ministers and MPs should be required to publicly declare their personal assets and business interests.",
    category := .governance, axis := .social, weight := 2,
    partyScores := { pap := -1, wp := 2, psp := 2, sdp := 2 } },
  { id := 27,
    text := "Parliament should have more power to scrutinize government budgets and spending decisions.",
    category := .governance, axis := .social, weight := 2,
    partyScores := { pap := -1, wp := 2, psp := 2, sdp := 2 } },
  { id := 28,
    text := "The current system where experienced ministers hold power for long periods ensures stability and good governance.",
    category := .governance, axis := .social, weight := 2,
    partyScores := { pap := 2, wp := -1, psp := -1, sdp := -2 } },
  { id := 29,
    text := "The Elected President should have more independent power over budgets and national reserves.",
    category := .governance, axis := .social, weight := 2,
    partyScores := { pap := -1, wp := 1, psp := 2, sdp := 2 } },
  { id := 30,
    text := "GRCs (Group Representation Constituencies) should be abolished in favor of single-member constituencies.",
    category := .governance, axis := .social, weight := 2,
    partyScores := { pap := -2, wp := 1, psp := 2, sdp := 2 } },
  { id := 31,
    text := "The media and press should have more freedom to criticize the government without fear of legal action.",
    category := .civil_liberties, axis := .social, weight := 3,
    partyScores := { pap := -2, wp := 1, psp := 2, sdp := 2 } },
  { id := 32,
    text := "Online content should be regulated by the government to prevent misinformation and maintain social harmony.",
    category := .civil_liberties, axis := .social, weight := 2,
    partyScores := { pap := 2, wp := 0, psp := -1, sdp := -2 } },
  { id := 33,
    text := "Singaporeans should be allowed to hold peaceful public protests and assemblies without requiring police permits.",
    category := .civil_liberties, axis := .social, weight := 2,
    partyScores := { pap := -2, wp := 1, psp := 1, sdp := 2 } },
  { id := 34,
    text := "The government should protect traditional family values even if it means limiting certain personal freedoms.",
    category := .civil_liberties, axis := .social, weight := 2,
    partyScores := { pap := 2, wp := 0, psp := 0, sdp := -2 } },
  { id := 35,
    text := "Laws that restrict speech and assembly are necessary to maintain Singapore's social stability and racial harmony.",
    category := .civil_liberties, axis := .social, weight := 2,
    partyScores := { pap := 2, wp := 0, psp := -1, sdp := -2 } },
  { id := 36,
    text := "Immigration levels should be significantly reduced to protect jobs and opportunities for Singaporeans.",
    category := .immigration, axis := .social, weight := 2,
    partyScores := { pap := -2, wp := 1, psp := 2, sdp := 1 } },
  { id := 37,
    text := "New citizens should be required to reside in Singapore for a longer period (e.g., 10+ years) before gaining full citizenship rights.",
    category := .immigration, axis := .social, weight := 2,
    partyScores := { pap := -1, wp := 1, psp := 2, sdp := 1 } },
  { id := 38,
    text := "Singapore needs continued immigration to sustain economic growth and address the aging population.",
    category := .immigration, axis := .social, weight := 2,
    partyScores := { pap := 2, wp := -1, psp := -2, sdp := -1 } },
  { id := 39,
    text := "The Ethnic Integration Policy (HDB quotas) is still necessary to prevent racial enclaves and maintain social cohesion.",
    category := .immigration, axis := .social, weight := 2,
    partyScores := { pap := 2, wp := 1, psp := 0, sdp := -1 } },
  { id := 40,
    text := "Foreign workers should have stronger employment protections and pathways to permanent residency.",
    category := .immigration, axis := .social, weight := 1,
    partyScores := { pap := 0, wp := 1, psp := -1, sdp := 2 } }
]

/-- Answer values; the source restricts answers to the set {-2,-1,0,1,2}, but
no computation in the engine depends on that restriction. -/
abbrev Answer := ℚ

/-- Modelled from the spec: the source imports `AXIS_RANGE` from `./axes`, a
file absent from the sources; the spec fixes the axis bound as the symmetric
range [-10, 10]. -/
def AXIS_RANGE : ℚ := 10

/-- Modelled from the spec: `SCORE_MULTIPLIER` is imported from the absent
`./axes`; the spec requires respondents and reference entities to be placed by
the identical transform, and the entity transform (`calculatePartyPosition`)
scales the normalized score by `AXIS_RANGE` alone, so the respondent-side
multiplier must be 1. -/
def SCORE_MULTIPLIER : ℚ := 1

/-- Per-category accumulator cell of `calculateScores`
(`{ economic, social, count }`). -/
structure CatScore where
  economic : ℚ
  social : ℚ
  count : ℕ
  deriving DecidableEq, Repr, Inhabited

/-- The `categoryScores` record of `calculateScores`, one cell per category. -/
structure CategoryScores where
  taxation : CatScore
  housing : CatScore
  healthcare : CatScore
  employment : CatScore
  welfare : CatScore
  governance : CatScore
  civil_liberties : CatScore
  immigration : CatScore
  deriving DecidableEq, Repr, Inhabited

/-- Dynamic read `categoryScores[category]`. -/
def CategoryScores.get (cs : CategoryScores) : QuestionCategory → CatScore
  | .taxation => cs.taxation
  | .housing => cs.housing
  | .healthcare => cs.healthcare
  | .employment => cs.employment
  | .welfare => cs.welfare
  | .governance => cs.governance
  | .civil_liberties => cs.civil_liberties
  | .immigration => cs.immigration

/-- Dynamic in-place update `categoryScores[category] = f(categoryScores[category])`. -/
def CategoryScores.update (cs : CategoryScores) (c : QuestionCategory)
    (f : CatScore → CatScore) : CategoryScores :=
  match c with
  | .taxation => { cs with taxation := f cs.taxation }
  | .housing => { cs with housing := f cs.housing }
  | .healthcare => { cs with healthcare := f cs.healthcare }
  | .employment => { cs with employment := f cs.employment }
  | .welfare => { cs with welfare := f cs.welfare }
  | .governance => { cs with governance := f cs.governance }
  | .civil_liberties => { cs with civil_liberties := f cs.civil_liberties }
  | .immigration => { cs with immigration := f cs.immigration }

/-- All-zero initial `categoryScores` record of `calculateScores`. -/
def initialCategoryScores : CategoryScores :=
  { taxation := ⟨0, 0, 0⟩, housing := ⟨0, 0, 0⟩, healthcare := ⟨0, 0, 0⟩,
    employment := ⟨0, 0, 0⟩, welfare := ⟨0, 0, 0⟩, governance := ⟨0, 0, 0⟩,
    civil_liberties := ⟨0, 0, 0⟩, immigration := ⟨0, 0, 0⟩ }

/-- Mutable state of the `calculateScores` loop: the raw and max axis
accumulators, the four per-party raw scores and the category record. -/
structure ScoreAccum where
  economicRawScore : ℚ
  socialRawScore : ℚ
  economicMaxScore : ℚ
  socialMaxScore : ℚ
  papScore : ℚ
  wpScore : ℚ
  pspScore : ℚ
  sdpScore : ℚ
  categoryScores : CategoryScores
  deriving DecidableEq, Repr, Inhabited

/-- Initial state of the `calculateScores` loop (all accumulators zero). -/
def initialScoreAccum : ScoreAccum :=
  { economicRawScore := 0, socialRawScore := 0, economicMaxScore := 0,
    socialMaxScore := 0, papScore := 0, wpScore := 0, pspScore := 0,
    sdpScore := 0, categoryScores := initialCategoryScores }

/-- Loop body of `calculateScores` (`questions.ts` lines 458-487): one
`(questionIdStr, userAnswer)` entry of `Object.entries(answers)`.  Unknown
question ids and answer 0 are skipped; the axis accumulators are touched only
when the axis direction is non-zero, while the category count and the
per-party raw scores are updated for every processed entry. -/
def processAnswer (state : ScoreAccum) (entry : ℕ × Answer) : ScoreAccum :=
  let questionId := entry.1
  let userAnswer := entry.2
  match questions.find? (fun q => q.id == questionId) with
  | none => state
  | some question =>
    if userAnswer = 0 then state
    else
      let axisDirection := getAxisDirection question
      let maxPossible := 2 * question.weight
      let state :=
        if axisDirection ≠ 0 then
          let weightedAnswer := userAnswer * axisDirection * question.weight
          if question.axis = .economic then
            { state with
              economicRawScore := state.economicRawScore + weightedAnswer,
              economicMaxScore := state.economicMaxScore + maxPossible,
              categoryScores := state.categoryScores.update question.category
                (fun s => { s with economic := s.economic + userAnswer * axisDirection }) }
          else
            { state with
              socialRawScore := state.socialRawScore + weightedAnswer,
              socialMaxScore := state.socialMaxScore + maxPossible,
              categoryScores := state.categoryScores.update question.category
                (fun s => { s with social := s.social + userAnswer * axisDirection }) }
        else state
      let state :=
        { state with
          categoryScores := state.categoryScores.update question.category
            (fun s => { s with count := s.count + 1 }) }
      { state with
        papScore := state.papScore + userAnswer * question.partyScores.pap * question.weight,
        wpScore := state.wpScore + userAnswer * question.partyScores.wp * question.weight,
        pspScore := state.pspScore + userAnswer * question.partyScores.psp * question.weight,
        sdpScore := state.sdpScore + userAnswer * question.partyScores.sdp * question.weight }

/-- The four per-party raw scores of a quiz result (`scoresByParty`). -/
structure ScoresByParty where
  pap : ℚ
  wp : ℚ
  psp : ℚ
  sdp : ℚ
  deriving DecidableEq, Repr, Inhabited

/-- One normalized category-breakdown cell of `scoresByCategory`. -/
structure CatBreakdown where
  economic : ℚ
  social : ℚ
  deriving DecidableEq, Repr, Inhabited

/-- Result record of `calculateScores` (`QuizResults` in `questions.ts`). -/
structure QuizResults where
  economicScore : ℚ
  socialScore : ℚ
  scoresByParty : ScoresByParty
  scoresByCategory : QuestionCategory → CatBreakdown
  answers : List (ℕ × Answer)

/-- Embeds `calculateScores` (`questions.ts` lines 436-522). -/
def calculateScores (answers : List (ℕ × Answer)) : QuizResults :=
  let st := answers.foldl processAnswer initialScoreAccum
  let normalizedEconomic :=
    if st.economicMaxScore > 0 then st.economicRawScore / st.economicMaxScore else 0
  let normalizedSocial :=
    if st.socialMaxScore > 0 then st.socialRawScore / st.socialMaxScore else 0
  let economicScore :=
    clamp (normalizedEconomic * AXIS_RANGE * SCORE_MULTIPLIER) (-AXIS_RANGE) AXIS_RANGE
  let socialScore :=
    clamp (normalizedSocial * AXIS_RANGE * SCORE_MULTIPLIER) (-AXIS_RANGE) AXIS_RANGE
  let normalizedCategoryScores : QuestionCategory → CatBreakdown := fun cat =>
    let scores := st.categoryScores.get cat
    { economic := if scores.count > 0 then scores.economic / scores.count else 0,
      social := if scores.count > 0 then scores.social / scores.count else 0 }
  { economicScore := economicScore,
    socialScore := socialScore,
    scoresByParty :=
      { pap := st.papScore, wp := st.wpScore, psp := st.pspScore, sdp := st.sdpScore },
    scoresByCategory := normalizedCategoryScores,
    answers := answers }

/-- The reference parties of `parties.ts` (lines 22-103), reduced to their ids;
the display metadata (names, colors, logos, policies) is irrelevant to the
engine and to every claim. -/
def parties : List PartyId := [.pap, .wp, .psp, .sdp]

/-- A 2D position `{ x, y }` in the compass, as produced by
`calculatePartyPosition`. -/
structure Pos where
  x : ℚ
  y : ℚ
  deriving DecidableEq, Repr, Inhabited

/-- Axis accumulators of the `calculatePartyPosition` loop. -/
structure PosAccum where
  economicScore : ℚ
  socialScore : ℚ
  economicMaxScore : ℚ
  socialMaxScore : ℚ
  deriving DecidableEq, Repr, Inhabited

/-- Loop body of `calculatePartyPosition` (`parties.ts` lines 128-147): a
party's stance on one question is treated as its answer; zero/absent stances
and direction-0 questions are skipped. -/
def partyPositionStep (partyId : PartyId) (acc : PosAccum) (question : Question) : PosAccum :=
  let partyAnswer := question.partyScores.get partyId
  if partyAnswer = 0 then acc
  else
    let axisDirection := getAxisDirection question
    if axisDirection = 0 then acc
    else
      let contribution := partyAnswer * axisDirection * question.weight
      let maxContribution := 2 * question.weight
      if question.axis = .economic then
        { acc with
          economicScore := acc.economicScore + contribution,
          economicMaxScore := acc.economicMaxScore + maxContribution }
      else
        { acc with
          socialScore := acc.socialScore + contribution,
          socialMaxScore := acc.socialMaxScore + maxContribution }

/-- Embeds `calculatePartyPosition` (`parties.ts` lines 122-158). -/
def calculatePartyPosition (partyId : PartyId) : Pos :=
  let acc := questions.foldl (partyPositionStep partyId) ⟨0, 0, 0, 0⟩
  let normalizedEconomic :=
    if acc.economicMaxScore > 0 then (acc.economicScore / acc.economicMaxScore) * AXIS_RANGE else 0
  let normalizedSocial :=
    if acc.socialMaxScore > 0 then (acc.socialScore / acc.socialMaxScore) * AXIS_RANGE else 0
  { x := normalizedEconomic, y := normalizedSocial }

/-- Embeds `getAllPartyPositions` (`parties.ts` lines 184-189); the cache layer
(`getPartyPositionsCache`) is pure memoization of `calculatePartyPosition` and
is embedded as the function itself. -/
def getAllPartyPositions : List (PartyId × Pos) :=
  parties.map (fun party => (party, calculatePartyPosition party))

/-- Embeds `getPartyMeanPosition` (`parties.ts` lines 199-207): the centroid of
the four party positions. -/
def getPartyMeanPosition : Pos :=
  let positions := getAllPartyPositions
  let sumX := positions.foldl (fun sum p => sum + p.2.x) 0
  let sumY := positions.foldl (fun sum p => sum + p.2.y) 0
  { x := sumX / positions.length, y := sumY / positions.length }

/-- Embeds `normalizePosition` (`parties.ts` lines 227-233). -/
def normalizePosition (x y : ℚ) : Pos :=
  let mean := getPartyMeanPosition
  { x := x - mean.x, y := y - mean.y }

/-- Embeds `getQuadrantName` (`parties.ts` lines 243-249), generic over the
ordered coordinate type so it can be read at `ℚ` (engine scores) or `ℝ`. -/
def getQuadrantName {α : Type} [LinearOrder α] [Zero α] (x y : α) : String :=
  if 0 ≤ x ∧ 0 < y then "Authoritarian Right"
  else if x < 0 ∧ 0 < y then "Authoritarian Left"
  else if x < 0 ∧ y ≤ 0 then "Libertarian Left"
  else if 0 ≤ x ∧ y ≤ 0 then "Libertarian Right"
  else "Centrist"

/-- Embeds `Math.sign`. -/
def mathSign (x : ℚ) : ℚ :=
  if x > 0 then 1 else if x < 0 then -1 else 0

/-- One element of the `getKeyDifferences` result (`PolicyDifference` in
`parties.ts`). -/
structure PolicyDifference where
  questionId : ℕ
  questionText : String
  category : QuestionCategory
  axis : Axis
  party1Answer : ℚ
  party2Answer : ℚ
  userAnswer : Option ℚ
  differenceScore : ℚ
  userAlignsWith : String
  deriving DecidableEq, Repr, Inhabited

/-- Question filter of `getKeyDifferences` (`parties.ts` lines 401-438): keep a
question only when the two stances differ by at least 2, classifying which
party the user's answer sides with.  (With the fixed party-id set both stances
are always defined, so the `undefined` early return never fires.) -/
def keyDifferenceOf (party1Id party2Id : PartyId) (userAnswers : List (ℕ × ℚ))
    (question : Question) : Option PolicyDifference :=
  let p1Answer := question.partyScores.get party1Id
  let p2Answer := question.partyScores.get party2Id
  let userAnswer := (userAnswers.find? (fun e => e.1 == question.id)).map (fun e => e.2)
  let differenceScore := |p1Answer - p2Answer|
  if differenceScore ≥ 2 then
    let userAlignsWith :=
      match userAnswer with
      | some ua =>
        if ua ≠ 0 then
          let distToP1 := |ua - p1Answer|
          let distToP2 := |ua - p2Answer|
          if distToP1 ≤ 1 ∧ distToP2 ≤ 1 then "both"
          else if distToP1 ≤ distToP2 - 1 then party1Id.str
          else if distToP2 ≤ distToP1 - 1 then party2Id.str
          else "neither"
        else "neither"
      | none => "neither"
    some { questionId := question.id, questionText := question.text,
           category := question.category, axis := question.axis,
           party1Answer := p1Answer, party2Answer := p2Answer,
           userAnswer := userAnswer, differenceScore := differenceScore,
           userAlignsWith := userAlignsWith }
  else none

/-- Embeds `getKeyDifferences` (`parties.ts` lines 393-444): filter, then the
stable sort descending by `differenceScore`, then truncate to `limit`. -/
def getKeyDifferences (party1Id party2Id : PartyId) (userAnswers : List (ℕ × ℚ))
    (limit : ℕ) : List PolicyDifference :=
  let differences := questions.filterMap (keyDifferenceOf party1Id party2Id userAnswers)
  (List.insertionSort (fun a b => b.differenceScore ≤ a.differenceScore) differences).take limit

/-- Intermediate element of `getCommonGround` (the pushed
`{ questionText, sharedStance, agreement }` record). -/
structure CommonGroundEntry where
  questionText : String
  sharedStance : String
  agreement : ℚ
  deriving DecidableEq, Repr, Inhabited

/-- Question filter of `getCommonGround` (`parties.ts` lines 456-477): keep a
question only when both stances are non-zero and share a sign. -/
def commonGroundOf (party1Id party2Id : PartyId) (question : Question) :
    Option CommonGroundEntry :=
  let p1Answer := question.partyScores.get party1Id
  let p2Answer := question.partyScores.get party2Id
  if p1Answer ≠ 0 ∧ p2Answer ≠ 0 ∧ mathSign p1Answer = mathSign p2Answer then
    let avgStance := (p1Answer + p2Answer) / 2
    let sharedStance :=
      if avgStance ≥ 3/2 then "Strongly support"
      else if avgStance > 0 then "Support"
      else if avgStance ≤ -(3/2) then "Strongly oppose"
      else "Oppose"
    some { questionText := question.text, sharedStance := sharedStance,
           agreement := min |p1Answer| |p2Answer| }
  else none

/-- Embeds `getCommonGround` (`parties.ts` lines 449-483): filter, stable sort
descending by agreement strength, truncate, then drop the `agreement` field. -/
def getCommonGround (party1Id party2Id : PartyId) (limit : ℕ) :
    List (String × String) :=
  let commonGround := questions.filterMap (commonGroundOf party1Id party2Id)
  ((List.insertionSort (fun a b => b.agreement ≤ a.agreement) commonGround).take limit).map
    (fun e => (e.questionText, e.sharedStance))

/-- Embeds `Math.hypot(x, y)`. -/
noncomputable def hypot (x y : ℝ) : ℝ := Real.sqrt (x ^ 2 + y ^ 2)

/-- One element of the `calculatePartyDistances` result (`PartyAlignment` in
`parties.ts`, the party reduced to its id). -/
structure PartyAlignment where
  party : PartyId
  position : Pos
  distance : ℝ
  alignment : ℝ
  economicDiff : ℝ
  socialDiff : ℝ

noncomputable instance : Inhabited PartyAlignment :=
  ⟨⟨.pap, default, 0, 0, 0, 0⟩⟩

/-- The `maxDistance` quantity of `calculatePartyDistances` (`parties.ts`
lines 283-300): 2.5 times the largest extent from the normalized center among
the normalized party positions and the normalized user position. -/
noncomputable def maxDistanceFor (userX userY : ℝ) : ℝ :=
  let mean := getPartyMeanPosition
  let normalizedUserX := userX - (mean.x : ℝ)
  let normalizedUserY := userY - (mean.y : ℝ)
  let normalizedPositions := getAllPartyPositions.map
    (fun p => (((p.2.x : ℝ) - (mean.x : ℝ)), ((p.2.y : ℝ) - (mean.y : ℝ))))
  let maxExtent := (normalizedPositions.map (fun p => hypot p.1 p.2)).foldr max
    (hypot normalizedUserX normalizedUserY)
  maxExtent * 2.5

/-- Body of the `positions.map` of `calculatePartyDistances` (`parties.ts`
lines 302-324): distance in mean-centered space and the derived alignment
percentage for one party. -/
noncomputable def distanceEntry (userX userY : ℝ) (pp : PartyId × Pos) : PartyAlignment :=
  let mean := getPartyMeanPosition
  let normalizedUserX := userX - (mean.x : ℝ)
  let normalizedUserY := userY - (mean.y : ℝ)
  let maxDistance := maxDistanceFor userX userY
  let position := pp.2
  let normalizedPartyX := (position.x : ℝ) - (mean.x : ℝ)
  let normalizedPartyY := (position.y : ℝ) - (mean.y : ℝ)
  let economicDiff := (position.x : ℝ) - userX
  let socialDiff := (position.y : ℝ) - userY
  let distance := hypot (normalizedPartyX - normalizedUserX) (normalizedPartyY - normalizedUserY)
  let alignment := max 0 (min 100 (((maxDistance - distance) / maxDistance) * 100))
  { party := pp.1, position := position, distance := distance,
    alignment := alignment, economicDiff := economicDiff, socialDiff := socialDiff }

/-- Embeds `calculatePartyDistances` (`parties.ts` lines 282-326): per-party
distances and alignments, stably sorted ascending by distance. -/
noncomputable def calculatePartyDistances (userX userY : ℝ) : List PartyAlignment :=
  List.insertionSort (fun a b => a.distance ≤ b.distance)
    (getAllPartyPositions.map (distanceEntry userX userY))

/-- Result of `getTopAlignedParties` (`TopAlignedResult` in `parties.ts`). -/
structure TopAlignedResult where
  best : PartyAlignment
  closeOnes : List PartyAlignment
  isTie : Bool
  tieThreshold : ℝ

/-- Tie-detection step of `getTopAlignedParties` (`parties.ts` lines 358-370)
on an already-ranked list: the head is the best match and `closeOnes` are the
later entries within `threshold` alignment points of it. -/
noncomputable def topAlignedOf (distances : List PartyAlignment) (threshold : ℝ) :
    TopAlignedResult :=
  let best := distances.headI
  let closeOnes := (distances.drop 1).filter
    (fun p => decide (|p.alignment - best.alignment| ≤ threshold))
  { best := best, closeOnes := closeOnes,
    isTie := decide (0 < closeOnes.length), tieThreshold := threshold }

/-- Embeds `getTopAlignedParties` (`parties.ts` lines 353-371); the source
defaults `threshold` to 5, which no claim depends on. -/
noncomputable def getTopAlignedParties (x y : ℝ) (threshold : ℝ) : TopAlignedResult :=
  topAlignedOf (calculatePartyDistances x y) threshold

/-- Follows the spec's words (§4.1 of the spec, quoted by claim C2): the axis
direction as the sign of (baseline stance − mean of the other stances), where
the mean omits every non-baseline entity whose stance is absent or zero from
its denominator, with the same 0.1 dead zone. -/
def specAxisDirection (question : Question) : ℚ :=
  let baseline := question.partyScores.pap
  let others := [question.partyScores.wp, question.partyScores.psp,
    question.partyScores.sdp].filter (fun s => !(s == 0))
  let othersMean := if others.length = 0 then 0 else others.sum / others.length
  let diff := baseline - othersMean
  if |diff| < 1/10 then 0
  else if diff > 0 then 1 else -1

/-- The synthetic respondent of the position-symmetry invariant: a party's own
stances fed as the answers to every question. -/
def partyAnswerList (p : PartyId) : List (ℕ × Answer) :=
  questions.map (fun q => (q.id, q.partyScores.get p))

/-- A user position placed exactly on PAP's raw position (x coordinate). -/
noncomputable def papUserX : ℝ := ((calculatePartyPosition .pap).x : ℝ)

/-- A user position placed exactly on PAP's raw position (y coordinate). -/
noncomputable def papUserY : ℝ := ((calculatePartyPosition .pap).y : ℝ)

/-- The ranked entry for PAP when the user sits exactly on PAP's position. -/
noncomputable def papEntry : PartyAlignment :=
  distanceEntry papUserX papUserY (.pap, calculatePartyPosition .pap)

/-- A ranked entry with alignment 61, for the spec's tie-detection scenario. -/
noncomputable def entry61 : PartyAlignment :=
  { party := .pap, position := ⟨0, 0⟩, distance := 0, alignment := 61,
    economicDiff := 0, socialDiff := 0 }

/-- A ranked entry with alignment 58, for the spec's tie-detection scenario. -/
noncomputable def entry58 : PartyAlignment :=
  { party := .wp, position := ⟨0, 0⟩, distance := 1, alignment := 58,
    economicDiff := 0, socialDiff := 0 }

attribute [local semireducible] Rat.add Rat.sub Rat.mul Rat.inv

/-- Any member of a list is bounded by the fold of `max` over it. -/
theorem le_foldr_max {l : List ℝ} {a : ℝ} (init : ℝ) (h : a ∈ l) :
    a ≤ l.foldr max init := by
  induction l with
  | nil => cases h
  | cons b t ih =>
    rcases List.mem_cons.mp h with rfl | h
    · exact le_max_left _ _
    · exact le_trans (ih h) (le_max_right _ _)

/-- The hypotenuse of a pair with a non-zero first coordinate is positive. -/
theorem hypot_pos_of_ne_zero {a : ℝ} (b : ℝ) (h : a ≠ 0) : 0 < hypot a b := by
  unfold hypot
  apply Real.sqrt_pos.mpr
  have ha : 0 < a ^ 2 := lt_of_le_of_ne (sq_nonneg a) (Ne.symm (pow_ne_zero 2 h))
  nlinarith [sq_nonneg b]

/-- Lower clamp bound. -/
theorem le_clamp (value lo hi : ℚ) : lo ≤ clamp value lo hi := le_max_left _ _

/-- Upper clamp bound. -/
theorem clamp_le (value lo hi : ℚ) (h : lo ≤ hi) : clamp value lo hi ≤ hi :=
  max_le h (min_le_left _ _)

/-- C2: for every question in the bank, the implemented axis direction (mean of
all three opposition stances over a fixed denominator 3) coincides with the
spec's formula, whose mean omits zero/absent stances from its denominator;
both sides use the 0.1 dead zone and the sign of the difference. -/
theorem axisDirection_matches_spec :
    ∀ q ∈ questions, getAxisDirection q = specAxisDirection q := by decide

theorem axisDirection_matches_spec_witness :
    questions.headI ∈ questions ∧
      getAxisDirection questions.headI = specAxisDirection questions.headI :=
  ⟨by decide, axisDirection_matches_spec questions.headI (by decide)⟩

set_option maxRecDepth 100000 in
/-- C1: feeding any reference party's own stances as a respondent's answers to
every question, `calculateScores` places the respondent exactly where
`calculatePartyPosition` places the party, on both axes. -/
theorem respondent_party_symmetry :
    ∀ p : PartyId,
      (calculateScores (partyAnswerList p)).economicScore = (calculatePartyPosition p).x ∧
      (calculateScores (partyAnswerList p)).socialScore = (calculatePartyPosition p).y := by
  decide

/-- C3: both axis scores of `calculateScores` always lie in
[-AXIS_RANGE, AXIS_RANGE], for every answer map. -/
theorem scores_within_axis_range (answers : List (ℕ × Answer)) :
    -AXIS_RANGE ≤ (calculateScores answers).economicScore ∧
    (calculateScores answers).economicScore ≤ AXIS_RANGE ∧
    -AXIS_RANGE ≤ (calculateScores answers).socialScore ∧
    (calculateScores answers).socialScore ≤ AXIS_RANGE := by
  refine ⟨?_, ?_, ?_, ?_⟩ <;> simp only [calculateScores] <;>
    first
    | exact le_clamp _ _ _
    | exact clamp_le _ _ _ (by norm_num [AXIS_RANGE])

/-- C8: the empty answer map yields zero on both axes and a zero raw score for
each of the four parties. -/
theorem calculateScores_empty :
    (calculateScores []).economicScore = 0 ∧ (calculateScores []).socialScore = 0 ∧
    (calculateScores []).scoresByParty.pap = 0 ∧ (calculateScores []).scoresByParty.wp = 0 ∧
    (calculateScores []).scoresByParty.psp = 0 ∧ (calculateScores []).scoresByParty.sdp = 0 := by
  decide

/-- C9: in the `calculateScores` loop, a processed entry with a known question
and a non-zero answer bumps a category tally only when that question's axis
direction is non-zero; this holds because every question of the bank has a
non-zero axis direction (first conjunct), even though the increment itself is
structurally unconditional in the loop body. -/
theorem category_count_only_directed :
    (∀ q ∈ questions, getAxisDirection q ≠ 0) ∧
    ∀ (st : ScoreAccum) (entry : ℕ × Answer) (q : Question) (c : QuestionCategory),
      questions.find? (fun x => x.id == entry.1) = some q → entry.2 ≠ 0 →
      ((processAnswer st entry).categoryScores.get c).count ≠
        ((st.categoryScores).get c).count →
      getAxisDirection q ≠ 0 := by
  have h : ∀ q ∈ questions, getAxisDirection q ≠ 0 := by decide
  exact ⟨h, fun st entry q c hfind _ _ => h q (List.mem_of_find?_eq_some hfind)⟩

theorem category_count_only_directed_witness :
    questions.find? (fun x => x.id == ((1, (1 : ℚ)) : ℕ × Answer).1) = some questions.headI ∧
    ((1, (1 : ℚ)) : ℕ × Answer).2 ≠ 0 ∧
    ((processAnswer initialScoreAccum (1, 1)).categoryScores.get .taxation).count ≠
      ((initialScoreAccum.categoryScores).get .taxation).count ∧
    getAxisDirection questions.headI ≠ 0 :=
  ⟨by decide, by decide, by decide,
    category_count_only_directed.2 initialScoreAccum (1, 1) questions.headI .taxation
      (by decide) (by decide) (by decide)⟩

/-- C10: for every pair of real coordinates the quadrant name is one of the
four quadrant labels; the trailing Centrist fallback is unreachable because
the four guards are exhaustive. -/
theorem quadrant_exhaustive (x y : ℝ) :
    (getQuadrantName x y = "Authoritarian Right" ∨
     getQuadrantName x y = "Authoritarian Left" ∨
     getQuadrantName x y = "Libertarian Left" ∨
     getQuadrantName x y = "Libertarian Right") ∧
    getQuadrantName x y ≠ "Centrist" := by
  unfold getQuadrantName
  split_ifs with h1 h2 h3 h4
  · exact ⟨Or.inl rfl, by decide⟩
  · exact ⟨Or.inr (Or.inl rfl), by decide⟩
  · exact ⟨Or.inr (Or.inr (Or.inl rfl)), by decide⟩
  · exact ⟨Or.inr (Or.inr (Or.inr rfl)), by decide⟩
  · exfalso
    rcases le_or_lt 0 x with hx | hx <;> rcases le_or_lt y 0 with hy | hy
    · exact h4 ⟨hx, hy⟩
    · exact h1 ⟨hx, hy⟩
    · exact h3 ⟨hx, hy⟩
    · exact h2 ⟨hx, hy⟩

theorem quadrant_exhaustive_witness :
    (getQuadrantName (1 : ℝ) 1 = "Authoritarian Right" ∨
     getQuadrantName (1 : ℝ) 1 = "Authoritarian Left" ∨
     getQuadrantName (1 : ℝ) 1 = "Libertarian Left" ∨
     getQuadrantName (1 : ℝ) 1 = "Libertarian Right") ∧
    getQuadrantName (1 : ℝ) 1 ≠ "Centrist" :=
  quadrant_exhaustive 1 1

/-- C6: no element returned by `getKeyDifferences` comes from a question on
which the two parties' stances differ by strictly less than 2. -/
theorem keyDifferences_threshold (party1Id party2Id : PartyId)
    (userAnswers : List (ℕ × ℚ)) (limit : ℕ) :
    ∀ d ∈ getKeyDifferences party1Id party2Id userAnswers limit,
      ¬ |d.party1Answer - d.party2Answer| < 2 := by
  intro d hd
  simp only [getKeyDifferences] at hd
  have hd1 : d ∈ questions.filterMap (keyDifferenceOf party1Id party2Id userAnswers) :=
    (List.perm_insertionSort _ _).mem_iff.mp (List.mem_of_mem_take hd)
  obtain ⟨q, -, hq⟩ := List.mem_filterMap.mp hd1
  simp only [keyDifferenceOf] at hq
  split at hq
  case isTrue hge =>
    rw [Option.some.injEq] at hq
    subst hq
    exact not_lt.mpr hge
  case isFalse => exact absurd hq (by simp)

set_option maxRecDepth 100000 in
theorem keyDifferences_threshold_witness :
    (getKeyDifferences .pap .wp [] 5).headI ∈ getKeyDifferences .pap .wp [] 5 ∧
    ¬ |(getKeyDifferences .pap .wp [] 5).headI.party1Answer -
        (getKeyDifferences .pap .wp [] 5).headI.party2Answer| < 2 :=
  ⟨by decide, keyDifferences_threshold .pap .wp [] 5 _ (by decide)⟩

/-- C7: every element returned by `getCommonGround` comes from a question on
which both parties' stances are non-zero and share the same sign. -/
theorem commonGround_same_sign (party1Id party2Id : PartyId) (limit : ℕ) :
    ∀ e ∈ getCommonGround party1Id party2Id limit,
      ∃ q ∈ questions, q.text = e.1 ∧
        q.partyScores.get party1Id ≠ 0 ∧ q.partyScores.get party2Id ≠ 0 ∧
        mathSign (q.partyScores.get party1Id) = mathSign (q.partyScores.get party2Id) := by
  intro e he
  simp only [getCommonGround] at he
  obtain ⟨entry, hentry, rfl⟩ := List.mem_map.mp he
  have h2 : entry ∈ questions.filterMap (commonGroundOf party1Id party2Id) :=
    (List.perm_insertionSort _ _).mem_iff.mp (List.mem_of_mem_take hentry)
  obtain ⟨q, hqmem, hq⟩ := List.mem_filterMap.mp h2
  refine ⟨q, hqmem, ?_⟩
  simp only [commonGroundOf] at hq
  split at hq
  case isTrue hcond =>
    rw [Option.some.injEq] at hq
    subst hq
    exact ⟨rfl, hcond.1, hcond.2.1, hcond.2.2⟩
  case isFalse => exact absurd hq (by simp)

set_option maxRecDepth 100000 in
theorem commonGround_same_sign_witness :
    (getCommonGround .wp .sdp 3).headI ∈ getCommonGround .wp .sdp 3 ∧
    ∃ q ∈ questions, q.text = (getCommonGround .wp .sdp 3).headI.1 ∧
      q.partyScores.get .wp ≠ 0 ∧ q.partyScores.get .sdp ≠ 0 ∧
      mathSign (q.partyScores.get .wp) = mathSign (q.partyScores.get .sdp) :=
  ⟨by decide, commonGround_same_sign .wp .sdp 3 _ (by decide)⟩

set_option maxRecDepth 100000 in
set_option maxHeartbeats 1000000 in
/-- The PAP position does not coincide with the party centroid, so the
normalized party spread — and with it the `maxDistance` scale — is positive
for every user position. -/
theorem maxDistanceFor_pos (x y : ℝ) : 0 < maxDistanceFor x y := by
  have hq : ((calculatePartyPosition .pap).x - getPartyMeanPosition.x : ℚ) ≠ 0 := by decide
  have hx0 : ((calculatePartyPosition PartyId.pap).x : ℝ) - (getPartyMeanPosition.x : ℝ) ≠ 0 := by
    rw [← Rat.cast_sub]
    exact Rat.cast_ne_zero.mpr hq
  have hpp : (PartyId.pap, calculatePartyPosition PartyId.pap) ∈ getAllPartyPositions :=
    List.mem_map_of_mem (fun party => (party, calculatePartyPosition party))
      (by decide : PartyId.pap ∈ parties)
  have h2 := List.mem_map_of_mem
    (fun p : PartyId × Pos =>
      (((p.2.x : ℝ) - (getPartyMeanPosition.x : ℝ)),
       ((p.2.y : ℝ) - (getPartyMeanPosition.y : ℝ)))) hpp
  have h3 := List.mem_map_of_mem (fun p : ℝ × ℝ => hypot p.1 p.2) h2
  simp only [maxDistanceFor]
  refine mul_pos ?_ (by norm_num)
  exact lt_of_lt_of_le (hypot_pos_of_ne_zero
    (((calculatePartyPosition PartyId.pap).y : ℝ) - (getPartyMeanPosition.y : ℝ)) hx0)
    (le_foldr_max _ h3)

/-- C4: the `maxDistance` scale is positive (so the alignment formula divides
by a non-zero quantity), every ranked entry's alignment percentage is within
[0, 100], and an entry at distance 0 from the user has alignment exactly
100. -/
theorem alignment_bounds (x y : ℝ) :
    0 < maxDistanceFor x y ∧
    ∀ a ∈ calculatePartyDistances x y,
      0 ≤ a.alignment ∧ a.alignment ≤ 100 ∧ (a.distance = 0 → a.alignment = 100) := by
  refine ⟨maxDistanceFor_pos x y, ?_⟩
  intro a ha
  simp only [calculatePartyDistances] at ha
  have ha2 : a ∈ getAllPartyPositions.map (distanceEntry x y) :=
    (List.perm_insertionSort _ _).mem_iff.mp ha
  obtain ⟨pp, -, rfl⟩ := List.mem_map.mp ha2
  refine ⟨?_, ?_, ?_⟩
  · simp only [distanceEntry]
    exact le_max_left _ _
  · simp only [distanceEntry]
    exact max_le (by norm_num) (min_le_left _ _)
  · intro hdist
    simp only [distanceEntry] at hdist ⊢
    rw [hdist, sub_zero, div_self (ne_of_gt (maxDistanceFor_pos x y))]
    norm_num

set_option maxRecDepth 100000 in
theorem alignment_bounds_witness :
    papEntry ∈ calculatePartyDistances papUserX papUserY ∧
    papEntry.distance = 0 ∧ papEntry.alignment = 100 := by
  have hmem : papEntry ∈ calculatePartyDistances papUserX papUserY := by
    simp only [calculatePartyDistances]
    refine (List.perm_insertionSort _ _).mem_iff.mpr ?_
    exact List.mem_map_of_mem (distanceEntry papUserX papUserY)
      (List.mem_map_of_mem (fun party => (party, calculatePartyPosition party))
        (by decide : PartyId.pap ∈ parties))
  have hdist : papEntry.distance = 0 := by
    simp only [papEntry, distanceEntry, papUserX, papUserY, hypot]
    rw [show ∀ u v : ℝ, u - v - (u - v) = 0 from fun u v => by ring]
    rw [show ∀ u v : ℝ, u - v - (u - v) = 0 from fun u v => by ring]
    norm_num
  exact ⟨hmem, hdist,
    ((alignment_bounds papUserX papUserY).2 papEntry hmem).2.2 hdist⟩

/-- C5: `getTopAlignedParties` reports a tie exactly when some party other
than the first-ranked one has an alignment within the threshold of the
first-ranked party's alignment, with `closeOnes` exactly the list of such
parties; in the spec's scenario of two entries at alignments 61 and 58, a
threshold of 9 yields a tie and a threshold of 2 does not. -/
theorem topAligned_tie_iff :
    (∀ (x y t : ℝ),
      ((getTopAlignedParties x y t).isTie = true ↔
        ∃ p ∈ (calculatePartyDistances x y).drop 1,
          |p.alignment - (calculatePartyDistances x y).headI.alignment| ≤ t) ∧
      (getTopAlignedParties x y t).closeOnes =
        ((calculatePartyDistances x y).drop 1).filter
          (fun p => decide (|p.alignment - (calculatePartyDistances x y).headI.alignment| ≤ t))) ∧
    (topAlignedOf [entry61, entry58] 9).isTie = true ∧
    (topAlignedOf [entry61, entry58] 2).isTie = false := by
  refine ⟨fun x y t => ⟨?_, rfl⟩, ?_, ?_⟩
  · simp only [getTopAlignedParties, topAlignedOf, decide_eq_true_eq]
    rw [List.length_pos_iff_exists_mem]
    constructor
    · rintro ⟨p, hp⟩
      obtain ⟨hp1, hp2⟩ := List.mem_filter.mp hp
      exact ⟨p, hp1, of_decide_eq_true hp2⟩
    · rintro ⟨p, hp1, hp2⟩
      exact ⟨p, List.mem_filter.mpr ⟨hp1, decide_eq_true hp2⟩⟩
  · have h : |entry58.alignment - entry61.alignment| ≤ 9 := by
      simp only [entry58, entry61]
      norm_num
    simp [topAlignedOf, List.headI, List.filter_cons, decide_eq_true_eq, h]
  · have h : ¬ |entry58.alignment - entry61.alignment| ≤ 2 := by
      simp only [entry58, entry61]
      norm_num
    simp [topAlignedOf, List.headI, List.filter_cons, decide_eq_true_eq, h]

end SGCompass
